import Mathlib

/-!
Verification of the ingestion/filtering/statistics core of the
`madrid_traffic_map` browser application.

The JavaScript source is shallowly embedded: every definition below mirrors a
concrete function of the source (`src/app.js` and the unnamed source parts).
JavaScript values that may be `undefined`/`null`/non-string are modelled as
`Option`; JavaScript floating-point numbers appearing only in comparisons are
modelled as rationals; JavaScript `Set`s are modelled as lists queried by
membership; JavaScript `Map`s as association lists in insertion order.
-/

namespace App

/-! ## Character-level helpers for `normalizeDistrict` (unnamed part_002)

The JS cleaning pipeline is: trim, toLowerCase, NFD-normalize and delete the
combining marks, replace each hyphen by a space, collapse whitespace runs to
one space, delete every occurrence of "aravaca", trim again.
We model `toLowerCase` followed by NFD-decomposition-plus-mark-stripping
character by character over the ASCII range and the Spanish accented letters
that occur in Madrid district names. -/

/-- ASCII whitespace, modelling the characters matched by JS `\s` and `trim`
for the inputs in scope. -/
def isWs (c : Char) : Bool :=
  c = ' ' || c = '\t' || c = '\n' || c = '\r' || c = '\x0b' || c = '\x0c'

/-- Drop whitespace from both ends, modelling `String.prototype.trim`. -/
def trimChars (l : List Char) : List Char :=
  ((l.dropWhile isWs).reverse.dropWhile isWs).reverse

/-- Models `toLowerCase` on ASCII letters and the Spanish accented capitals. -/
def jsLower (c : Char) : Char :=
  if c = 'Á' then 'á' else if c = 'É' then 'é' else if c = 'Í' then 'í'
  else if c = 'Ó' then 'ó' else if c = 'Ú' then 'ú' else if c = 'Ñ' then 'ñ'
  else if c = 'Ü' then 'ü' else c.toLower

/-- Models NFD normalization followed by deletion of the combining marks, on
the lowercase Spanish letters: the base letter survives, the mark is
removed. -/
def stripAccent (c : Char) : Char :=
  if c = 'á' then 'a' else if c = 'é' then 'e' else if c = 'í' then 'i'
  else if c = 'ó' then 'o' else if c = 'ú' then 'u' else if c = 'ü' then 'u'
  else if c = 'ñ' then 'n' else c

/-- Models the whitespace-collapsing replace: each maximal whitespace run
becomes one space.  Structural recursion on fuel so that the kernel can
evaluate it; the fuel chosen by `collapseWs` always suffices. -/
def collapseWsFuel : Nat → List Char → List Char
  | 0, l => l
  | _ + 1, [] => []
  | f + 1, c :: cs =>
    if isWs c then ' ' :: collapseWsFuel f (cs.dropWhile isWs)
    else c :: collapseWsFuel f cs

def collapseWs (l : List Char) : List Char :=
  collapseWsFuel (l.length + 1) l

/-- Does `hay` start with `pat`? -/
def leadMatch : List Char → List Char → Bool
  | [], _ => true
  | _ :: _, [] => false
  | a :: pas, b :: bs => a = b && leadMatch pas bs

/-- Does `hay` contain `pat` as a contiguous subsequence?  Models JS
`String.prototype.includes`. -/
def hasSub (pat : List Char) : List Char → Bool
  | [] => leadMatch pat []
  | c :: cs => leadMatch pat (c :: cs) || hasSub pat cs

def aravacaChars : List Char := ['a', 'r', 'a', 'v', 'a', 'c', 'a']

/-- Models the global replace deleting "aravaca": left-to-right,
non-overlapping removal of every occurrence.  Fuel-based recursion; the fuel
chosen by `removeAravaca` always suffices because each step consumes at least
one character. -/
def removeAravacaFuel : Nat → List Char → List Char
  | 0, l => l
  | _ + 1, [] => []
  | f + 1, c :: cs =>
    if leadMatch aravacaChars (c :: cs) then removeAravacaFuel f ((c :: cs).drop 7)
    else c :: removeAravacaFuel f cs

def removeAravaca (l : List Char) : List Char :=
  removeAravacaFuel (l.length + 1) l

/-- The `cleanName` computation of `normalizeDistrict` (part_002 lines
377-386), step for step in source order. -/
def cleanName (s : String) : String :=
  let t1 := trimChars s.data
  let t2 := t1.map jsLower
  let t3 := t2.map stripAccent
  let t4 := t3.map fun c => if c = '-' then ' ' else c
  let t5 := collapseWs t4
  let t6 := removeAravaca t5
  ⟨trimChars t6⟩

/-- The normalization applied to each canonical district name inside the
containment search (part_002 lines 407-410): lowercase plus accent stripping
only — no trimming, no hyphen replacement. -/
def normName (s : String) : String :=
  ⟨(s.data.map jsLower).map stripAccent⟩

/-- The `districtVariants` alias object of `normalizeDistrict` (part_002
lines 389-398), looked up by exact match on the cleaned name. -/
def aliasLookup (s : String) : Option String :=
  if s = "moncloa" then some "Moncloa-Aravaca"
  else if s = "chamberi" then some "Chamberí"
  else if s = "vicalvaro" then some "Vicálvaro"
  else if s = "fuencarral el pardo" then some "Fuencarral-El Pardo"
  else if s = "puente de vallekas" then some "Puente de Vallecas"
  else if s = "ciudad lineal" then some "Ciudad Lineal"
  else if s = "san blas" then some "San Blas-Canillejas"
  else if s = "barajas" then some "Barajas"
  else none

/-- Modelled from the spec: the district boundary collection
`madrid-districts.geojson` is fetched at runtime and is not part of the
source tree; per the spec (§3, §4.3) the canonical vocabulary is the closed,
ordered set of Madrid's 21 administrative districts.  `normalizeDistrict`
iterates its features in this fixed order. -/
def madridDistrictNames : List String :=
  ["Centro", "Arganzuela", "Retiro", "Salamanca", "Chamartín", "Tetuán",
   "Chamberí", "Fuencarral-El Pardo", "Moncloa-Aravaca", "Latina",
   "Carabanchel", "Usera", "Puente de Vallecas", "Moratalaz", "Ciudad Lineal",
   "Hortaleza", "Villaverde", "Villa de Vallecas", "Vicálvaro",
   "San Blas-Canillejas", "Barajas"]

/-- The containment predicate of the `find` call (part_002 lines 406-412):
`districtName.includes(cleanName) || cleanName.includes(districtName)`. -/
def districtMatch (clean : String) (d : String) : Bool :=
  hasSub clean.data (normName d).data || hasSub (normName d).data clean.data

/-- `normalizeDistrict` (part_002 lines 371-420).  The input is `none` when
the JS argument is falsy or not a string (the `typeof` guard); the empty
string is falsy and is handled by the explicit guard. -/
def normalizeDistrict (districts : List String) (name : Option String) : String :=
  match name with
  | none => "Unknown"
  | some s =>
    if s = "" then "Unknown"
    else
      let clean := cleanName s
      match aliasLookup clean with
      | some v => v
      | none =>
        match districts.find? (districtMatch clean) with
        | some d => d
        | none => "Unknown"

/-! ## Coordinate Validator (`validateCoordinates`, part_002 lines 318-343) -/

structure MadridBounds where
  minLng : ℚ
  maxLng : ℚ
  minLat : ℚ
  maxLat : ℚ

/-- The `madridBounds` constant of `validateCoordinates`. -/
def madridBounds : MadridBounds :=
  { minLng := -4.35, maxLng := -3.1, minLat := 40.15, maxLat := 40.65 }

/-- `validateCoordinates(lng, lat)` (part_002 lines 318-343).  A JS value
that is not a finite number (the `typeof` and `isNaN` guards) is modelled as
`none`. -/
def validateCoordinates (lng lat : Option ℚ) : Bool :=
  match lng, lat with
  | some l, some t =>
    decide (madridBounds.minLng ≤ l) && decide (l ≤ madridBounds.maxLng) &&
      decide (madridBounds.minLat ≤ t) && decide (t ≤ madridBounds.maxLat)
  | _, _ => false

/-! ## Feature model, Filter Engine and visibility (src/app.js) -/

/-- The canonical Feature record built by `createFeature` (app.js lines
152-168): the `geometry.coordinates` pair plus the `properties` object in
source field order.  `neighborhood` and `address` are `Option` because for
the Streetlights dataset the source copies the raw row field, which may be
absent (`undefined`). -/
structure Feature where
  coordinates : ℚ × ℚ
  category : String
  district : String
  neighborhood : Option String
  type : String
  id : String
  address : Option String

/-- The `activeFilters` global (app.js lines 14-18): three sets of selected
facet values, modelled as lists queried by membership. -/
structure FilterState where
  categories : List String
  districts : List String
  neighborhoods : List (Option String)

/-- The visibility predicate of `updateVisibility` (app.js lines 319-321 and
part_000 lines 171-173): a plain three-way conjunction of set membership. -/
def isVisible (f : Feature) (st : FilterState) : Bool :=
  st.categories.contains f.category && st.districts.contains f.district &&
    st.neighborhoods.contains f.neighborhood

/-- Stated from the specification's words (spec §3, Filter State invariant),
for comparison against `isVisible`: the neighborhood membership test is
skipped — treated as true — when the feature's neighborhood is the "N/A"
sentinel. -/
def specVisible (f : Feature) (st : FilterState) : Bool :=
  st.categories.contains f.category && st.districts.contains f.district &&
    (f.neighborhood = some "N/A" || st.neighborhoods.contains f.neighborhood)

/-- A non-Streetlight feature (neighborhood is the "N/A" sentinel) used to
separate `isVisible` from `specVisible`. -/
def cexFeature : Feature :=
  { coordinates := (-37/10, 2021/50), category := "Traffic Lights",
    district := "Centro", neighborhood := some "N/A",
    type := "N/A", id := "123", address := none }

/-- A filter state whose active neighborhood set does not contain "N/A". -/
def cexFilters : FilterState :=
  { categories := ["Traffic Lights"], districts := ["Centro"],
    neighborhoods := [some "Sol"] }

/-- `populateFilters` (app.js lines 255-267): the checkbox list rendered for
a facet keeps only truthy values different from "Unknown". -/
def populateFilters (values : List String) : List String :=
  values.filter fun v => !(v == "") && !(v == "Unknown")

/-- The per-marker opacity assignment of `updateVisibility` (app.js lines
307-333): each marker's opacity is 1 when visible and 0 otherwise, here the
Boolean flag paired with the feature. -/
def updateVisibility (markers : List Feature) (st : FilterState) :
    List (Feature × Bool) :=
  markers.map fun f => (f, isVisible f st)

/-! ## Statistics Aggregator (`updateStatistics`, app.js lines 336-353) -/

/-- One `counts.set(key, (counts.get(key) || 0) + 1)` step on a JS `Map`
modelled as an association list: an existing key is bumped in place, a new
key is appended. -/
def bump (k : String) : List (String × Nat) → List (String × Nat)
  | [] => [(k, 1)]
  | (k', n) :: rest => if k' = k then (k', n + 1) :: rest else (k', n) :: bump k rest

/-- The `counts` accumulator of `updateStatistics`. -/
structure StatsCounts where
  total : Nat
  categories : List (String × Nat)
  districts : List (String × Nat)

/-- The body of the `eachLayer` callback of `updateStatistics`: markers whose
opacity is 1 contribute to the total and to their category and district
counters. -/
def statsStep (c : StatsCounts) (m : Feature × Bool) : StatsCounts :=
  if m.2 then
    { total := c.total + 1
      categories := bump m.1.category c.categories
      districts := bump m.1.district c.districts }
  else c

/-- `updateStatistics` (app.js lines 336-353): one full pass over the marker
store. -/
def updateStatistics (markers : List (Feature × Bool)) : StatsCounts :=
  markers.foldl statsStep { total := 0, categories := [], districts := [] }

/-- Sum of the per-key counts of an association list. -/
def sumCounts (l : List (String × Nat)) : Nat :=
  (l.map Prod.snd).sum

/-! ## Record rows and Feature Builder (`createFeature`, app.js lines 152-168) -/

/-- A Raw Row as produced by the tabular parser, with the columns read by
`createFeature` and `parseCoordinates`.  `Option` models an absent
(`undefined`), `null` or empty column; the coordinate fields carry the
already-parsed `parseFloat` value, `none` standing for NaN or a missing
cell. -/
structure Row where
  district : Option String
  neighborhood : Option String
  type : Option String
  id : Option String
  address : Option String
  Longitude : Option ℚ
  Latitude : Option ℚ
deriving DecidableEq

/-- JS `x || d` for a string-or-undefined `x`: the empty string is falsy and
also falls back to the default. -/
def jsOrStr (v : Option String) (d : String) : String :=
  match v with
  | some s => if s = "" then d else s
  | none => d

/-- `createFeature(row, dataset, coords)` (app.js lines 152-168). -/
def createFeature (row : Row) (datasetName : String) (coords : ℚ × ℚ) : Feature :=
  { coordinates := coords
    category := datasetName
    district := jsOrStr row.district "Unknown"
    neighborhood := if datasetName = "Streetlights" then row.neighborhood else some "N/A"
    type := jsOrStr row.type "N/A"
    id := jsOrStr row.id "N/A"
    address := if datasetName = "Streetlights" then row.address else some "N/A" }

/-- A fully-populated sample row. -/
def wRow : Row :=
  { district := some "Centro", neighborhood := some "Sol", type := some "lamp",
    id := some "42", address := some "Calle Mayor 1",
    Longitude := some (-37/10), Latitude := some (101/25) }

/-! ## Incremental Loader (`loadData`, app.js lines 54-117, and the per-row
validation and skip counting of part_002 lines 158-219) -/

/-- `parseCoordinates(row, dataset)` (app.js lines 119-150): both fields must
parse to numbers, and the JS truthiness test `!lng || !lat` additionally
rejects a coordinate equal to 0. -/
def parseCoordinates (r : Row) : Option (ℚ × ℚ) :=
  match r.Longitude, r.Latitude with
  | some lng, some lat => if lng = 0 ∨ lat = 0 then none else some (lng, lat)
  | _, _ => none

/-- The result of fetching and parsing one dataset: `failed` covers a
non-`ok` fetch response as well as a total parse failure, both of which throw
in the source. -/
inductive FetchOutcome where
  | fetched (rows : List Row)
  | failed
deriving DecidableEq

/-- The per-dataset row loop of `loadData`: rejected rows are skipped and
tallied (the `invalidRows` counter of part_002), accepted rows become
Features in row order. -/
def processRows (name : String) : List Row → List Feature × Nat
  | [] => ([], 0)
  | r :: rs =>
    let rest := processRows name rs
    match parseCoordinates r with
    | some c => (createFeature r name c :: rest.1, rest.2)
    | none => (rest.1, rest.2 + 1)

/-- The dataset loop of `loadData` (app.js lines 76-108): datasets are loaded
strictly sequentially; a failed fetch throws out of the loop into the
surrounding catch, which surfaces the message via `showError`.  The
`Except.error` branch models that user-visible abort. -/
def loadData : List (String × FetchOutcome) → Except String (List Feature × Nat)
  | [] => Except.ok ([], 0)
  | (n, FetchOutcome.failed) :: _ => Except.error ("Failed to load " ++ n)
  | (n, FetchOutcome.fetched rows) :: rest =>
    let this := processRows n rows
    match loadData rest with
    | Except.error e => Except.error e
    | Except.ok (fs, sk) => Except.ok (this.1 ++ fs, this.2 + sk)

/-! ## Batched committing and progress (`addFeaturesInBatches`, app.js lines
170-203, and `updateLoadingState`, app.js lines 26-31) -/

/-- The progress computation of `updateLoadingState` (app.js line 27):
`(loadingState.loaded / loadingState.total) * 100`. -/
def progressPercent (loaded total : Nat) : ℚ :=
  ((loaded : ℚ) / (total : ℚ)) * 100

/-- The slicing loop of `addFeaturesInBatches`: repeatedly take
`CONFIG.BATCH_SIZE` features.  Fuel-based recursion; the fuel chosen by
`addFeaturesInBatches` always suffices for a positive batch size. -/
def sliceBatchesFuel {a : Type} : Nat → Nat → List a → List (List a)
  | 0, _, _ => []
  | _ + 1, _, [] => []
  | f + 1, size, l => l.take size :: sliceBatchesFuel f size (l.drop size)

/-- `addFeaturesInBatches(features)` (app.js lines 170-203), returning the
list of committed batches in commit order. -/
def addFeaturesInBatches {a : Type} (size : Nat) (features : List a) : List (List a) :=
  sliceBatchesFuel (features.length + 1) size features

/-- The `loadingState.loaded += batch.length` accumulation inside the batch
loop (app.js line 198), starting from the value `loaded` already reached at
the end of the row-parsing loop. -/
def loadedAfterBatches {a : Type} (startLoaded : Nat) (bs : List (List a)) : Nat :=
  bs.foldl (fun acc b => acc + b.length) startLoaded

/-- The batch-size sequence produced by the slicing loop, as a function of
the feature count alone. -/
def batchSizesFuel : Nat → Nat → Nat → List Nat
  | 0, _, _ => []
  | _ + 1, _, 0 => []
  | f + 1, size, n => min size n :: batchSizesFuel f size (n - size)

/-! ## Helper lemmas -/

theorem hasSub_nil (hay : List Char) : hasSub [] hay = true := by
  cases hay <;> simp [hasSub, leadMatch]

theorem aliasLookup_mem {s v : String} (h : aliasLookup s = some v) :
    v ∈ madridDistrictNames := by
  unfold aliasLookup at h
  split_ifs at h <;> simp_all [madridDistrictNames]

theorem sumCounts_bump (k : String) (l : List (String × Nat)) :
    sumCounts (bump k l) = sumCounts l + 1 := by
  induction l with
  | nil => simp [bump, sumCounts]
  | cons p rest ih =>
    obtain ⟨k', n⟩ := p
    by_cases h : k' = k <;> simp [bump, h, sumCounts] at ih ⊢ <;> omega

theorem stats_fold_invariant (ms : List (Feature × Bool)) :
    ∀ acc : StatsCounts, acc.total = sumCounts acc.categories →
      (ms.foldl statsStep acc).total = sumCounts (ms.foldl statsStep acc).categories := by
  induction ms with
  | nil => intro acc h; simpa
  | cons m rest ih =>
    intro acc h
    simp only [List.foldl_cons]
    apply ih
    obtain ⟨f, vis⟩ := m
    cases vis <;> simp [statsStep, sumCounts_bump, h]

theorem sliceBatchesFuel_flatten {a : Type} (size : Nat) (hs : size ≠ 0) :
    ∀ (f : Nat) (l : List a), l.length < f → (sliceBatchesFuel f size l).flatten = l := by
  intro f
  induction f with
  | zero => intro l hl; omega
  | succ f ih =>
    intro l hl
    cases l with
    | nil => rfl
    | cons x xs =>
      simp only [sliceBatchesFuel, List.flatten_cons]
      rw [ih ((x :: xs).drop size) (by rw [List.length_drop]; simp at hl ⊢; omega)]
      exact List.take_append_drop size (x :: xs)

theorem sliceBatchesFuel_map_length {a : Type} :
    ∀ (f size : Nat) (l : List a),
      (sliceBatchesFuel f size l).map List.length = batchSizesFuel f size l.length := by
  intro f
  induction f with
  | zero => intro size l; rfl
  | succ f ih =>
    intro size l
    cases l with
    | nil => rfl
    | cons x xs =>
      simp only [sliceBatchesFuel, List.map_cons, ih, List.length_take, List.length_drop,
        List.length_cons]
      rfl

theorem loadedAfterBatches_eq {a : Type} (bs : List (List a)) :
    ∀ start, loadedAfterBatches start bs = start + (bs.map List.length).sum := by
  induction bs with
  | nil => intro start; simp [loadedAfterBatches]
  | cons b rest ih =>
    intro start
    simp only [loadedAfterBatches, List.foldl_cons, List.map_cons, List.sum_cons] at ih ⊢
    rw [ih]
    omega

/-! ## Claim theorems -/

/-- C1 (counterexample): the claimed visibility invariant is false on the
code.  For the concrete non-Streetlight feature `cexFeature` (neighborhood
"N/A") and the filter state `cexFilters` (whose active neighborhood set lacks
"N/A"), the source predicate `isVisible` hides the feature while the claimed
predicate `specVisible` — which skips the neighborhood test on the "N/A"
sentinel — shows it. -/
theorem C1_counterexample :
    isVisible cexFeature cexFilters ≠ specVisible cexFeature cexFilters := by
  decide

/-- C1 (amended): a feature is visible iff its category, district, and
neighborhood are each members of the corresponding active set; the
neighborhood membership test is applied uniformly, with no special case for
the "N/A" sentinel. -/
theorem C1_visibility_iff (f : Feature) (st : FilterState) :
    isVisible f st = true ↔
      (f.category ∈ st.categories ∧ f.district ∈ st.districts ∧
        f.neighborhood ∈ st.neighborhoods) := by
  simp [isVisible, and_assoc]

/-- C1 witness: the amended equivalence instantiated at a concrete feature
and filter state. -/
theorem C1_visibility_iff_witness :
    isVisible cexFeature
      { categories := ["Traffic Lights"], districts := ["Centro"],
        neighborhoods := [some "N/A"] } = true :=
  (C1_visibility_iff cexFeature _).mpr (by decide)

/-- C2: the Coordinate Validator accepts a parsed pair iff the longitude lies
in [-4.35, -3.10] and the latitude in [40.15, 40.65]; in particular it
rejects (-3.0, 40.4) and accepts (-3.70, 40.42). -/
theorem C2_coordinate_validator :
    (∀ lng lat : ℚ, validateCoordinates (some lng) (some lat) = true ↔
      (-4.35 ≤ lng ∧ lng ≤ -3.1 ∧ 40.15 ≤ lat ∧ lat ≤ 40.65)) ∧
    validateCoordinates (some (-3.0)) (some 40.4) = false ∧
    validateCoordinates (some (-3.70)) (some 40.42) = true := by
  refine ⟨?_, ?_, ?_⟩
  · intro lng lat
    simp [validateCoordinates, madridBounds, and_assoc]
  · norm_num [validateCoordinates, madridBounds]
  · norm_num [validateCoordinates, madridBounds]

/-- C2 witness: the acceptance direction instantiated at (-3.70, 40.42). -/
theorem C2_coordinate_validator_witness :
    validateCoordinates (some (-3.70)) (some 40.42) = true :=
  (C2_coordinate_validator.1 (-3.70) 40.42).mpr (by norm_num)

/-- C3: the District Normalizer is total — for every input (`none` models
null/non-string, and the empty string, nonsense text and arbitrary strings
are all covered) it returns either a member of the canonical district
vocabulary or the sentinel "Unknown", never an unrecognized free-text
string. -/
theorem C3_normalizer_total (name : Option String) :
    normalizeDistrict madridDistrictNames name ∈ madridDistrictNames ∨
      normalizeDistrict madridDistrictNames name = "Unknown" := by
  cases name with
  | none => right; rfl
  | some s =>
    unfold normalizeDistrict
    by_cases hs : s = ""
    · simp [hs]
    · simp only [hs, if_false]
      cases h : aliasLookup (cleanName s) with
      | some v => simpa [h] using Or.inl (aliasLookup_mem h)
      | none =>
        cases hf : madridDistrictNames.find? (districtMatch (cleanName s)) with
        | some d => simpa [h, hf] using Or.inl (List.mem_of_find?_eq_some hf)
        | none => simp [h, hf]

/-- C4: during a load, a failed fetch or total parse failure of any one
dataset aborts the entire load with a surfaced error (first conjunct); if no
dataset fails, the load always completes (second conjunct); and within a
dataset a per-row validation rejection is recoverable — the accepted rows
become features in row order and every rejected row is counted and skipped
(third conjunct). -/
theorem C4_failure_semantics :
    (∀ (pre : List (String × FetchOutcome)) (n : String) post,
      ∃ e, loadData (pre ++ (n, FetchOutcome.failed) :: post) = Except.error e) ∧
    (∀ ds : List (String × FetchOutcome),
      (∀ p ∈ ds, p.2 ≠ FetchOutcome.failed) →
      ∃ out, loadData ds = Except.ok out) ∧
    (∀ n rows, processRows n rows =
      (rows.filterMap fun r => (parseCoordinates r).map fun c => createFeature r n c,
       (rows.filter fun r => (parseCoordinates r).isNone).length)) := by
  refine ⟨?_, ?_, ?_⟩
  · intro pre n post
    induction pre with
    | nil => exact ⟨"Failed to load " ++ n, rfl⟩
    | cons p rest ih =>
      obtain ⟨m, o⟩ := p
      cases o with
      | failed => exact ⟨"Failed to load " ++ m, rfl⟩
      | fetched rows =>
        obtain ⟨e, he⟩ := ih
        exact ⟨e, by simp [loadData, he]⟩
  · intro ds h
    induction ds with
    | nil => exact ⟨([], 0), rfl⟩
    | cons p rest ih =>
      obtain ⟨m, o⟩ := p
      cases o with
      | failed => exact absurd rfl (h (m, FetchOutcome.failed) (by simp))
      | fetched rows =>
        obtain ⟨⟨fs, sk⟩, hout⟩ := ih fun q hq => h q (by simp [hq])
        exact ⟨((processRows m rows).1 ++ fs, (processRows m rows).2 + sk),
          by simp [loadData, hout]⟩
  · intro n rows
    induction rows with
    | nil => rfl
    | cons r rs ih =>
      cases h : parseCoordinates r <;>
        simp [processRows, h, ih, List.filter_cons, List.filterMap_cons]

/-- C4 witness: a failing dataset aborts the load, a clean dataset list
completes. -/
theorem C4_failure_semantics_witness :
    (∃ e, loadData [("Traffic Lights", FetchOutcome.failed)] = Except.error e) ∧
    (∃ out, loadData [("Streetlights", FetchOutcome.fetched [wRow])] = Except.ok out) :=
  ⟨C4_failure_semantics.1 [] "Traffic Lights" [],
   C4_failure_semantics.2.1 _ (by decide)⟩

/-- C5 (code evaluated at the failing input): for 1200 accepted rows and
batch size 500 the store receives exactly the batches 500, 500, 200 in row
order (first two conjuncts), but the reported progress is already 100% at
the end of the row-parsing loop — before the first batch is committed —
because `loadingState.loaded` already equals the row total there; committing
the batches increments `loaded` a second time, to 2400 of 1200, so the
reported progress ends at 200% instead of reaching 100% only after the final
batch. -/
theorem C5_progress_evaluation {a : Type} (features : List a)
    (hlen : features.length = 1200) :
    ((addFeaturesInBatches 500 features).map List.length = [500, 500, 200]) ∧
    ((addFeaturesInBatches 500 features).flatten = features) ∧
    progressPercent 1200 1200 = 100 ∧
    loadedAfterBatches 1200 (addFeaturesInBatches 500 features) = 2400 ∧
    progressPercent 2400 1200 = 200 := by
  have hmap : (addFeaturesInBatches 500 features).map List.length = [500, 500, 200] := by
    unfold addFeaturesInBatches
    rw [sliceBatchesFuel_map_length, hlen]
    decide
  refine ⟨hmap, ?_, ?_, ?_, ?_⟩
  · exact sliceBatchesFuel_flatten 500 (by omega) _ features (by omega)
  · norm_num [progressPercent]
  · rw [loadedAfterBatches_eq, hmap]; rfl
  · norm_num [progressPercent]

/-- C5 witness: the batch decomposition at a concrete 1200-element list. -/
theorem C5_progress_evaluation_witness :
    (addFeaturesInBatches 500 (List.range 1200)).map List.length = [500, 500, 200] :=
  (C5_progress_evaluation (List.range 1200) (by simp)).1

/-- C6: for a fixed marker store and fixed filter state the Statistics
Aggregator is deterministic — two invocations yield identical snapshots —
and the total visible count equals the sum of the per-category visible
counts. -/
theorem C6_statistics (markers : List Feature) (st : FilterState) :
    updateStatistics (updateVisibility markers st) =
      updateStatistics (updateVisibility markers st) ∧
    (updateStatistics (updateVisibility markers st)).total =
      sumCounts (updateStatistics (updateVisibility markers st)).categories := by
  refine ⟨rfl, ?_⟩
  unfold updateStatistics
  exact stats_fold_invariant _ _ rfl

/-- C7: the Feature Builder's output is category-conditional — neighborhood
and address are copied from the row only for the Streetlights category and
are the "N/A" sentinel otherwise; id is copied when the row provides one
(the TrafficLight/AcousticSignal datasets) and falls back to "N/A"; type is
copied when present and is "N/A" otherwise. -/
theorem C7_feature_builder (row : Row) (ds : String) (c : ℚ × ℚ) :
    (ds ≠ "Streetlights" →
      (createFeature row ds c).neighborhood = some "N/A" ∧
      (createFeature row ds c).address = some "N/A") ∧
    (ds = "Streetlights" →
      (createFeature row ds c).neighborhood = row.neighborhood ∧
      (createFeature row ds c).address = row.address) ∧
    (∀ s, row.id = some s → s ≠ "" → (createFeature row ds c).id = s) ∧
    ((row.id = none ∨ row.id = some "") → (createFeature row ds c).id = "N/A") ∧
    (∀ s, row.type = some s → s ≠ "" → (createFeature row ds c).type = s) ∧
    ((row.type = none ∨ row.type = some "") → (createFeature row ds c).type = "N/A") := by
  refine ⟨fun h => ?_, fun h => ?_, fun s h1 h2 => ?_, fun h => ?_, fun s h1 h2 => ?_,
    fun h => ?_⟩
  · simp [createFeature, h]
  · simp [createFeature, h]
  · simp [createFeature, jsOrStr, h1, h2]
  · rcases h with h | h <;> simp [createFeature, jsOrStr, h]
  · simp [createFeature, jsOrStr, h1, h2]
  · rcases h with h | h <;> simp [createFeature, jsOrStr, h]

/-- C7 witness: a Traffic Lights feature gets the "N/A" neighborhood sentinel
and its row id. -/
theorem C7_feature_builder_witness :
    (createFeature wRow "Traffic Lights" (-37/10, 101/25)).neighborhood = some "N/A" ∧
    (createFeature wRow "Traffic Lights" (-37/10, 101/25)).id = "42" :=
  ⟨((C7_feature_builder wRow "Traffic Lights" (-37/10, 101/25)).1 (by decide)).1,
   (C7_feature_builder wRow "Traffic Lights" (-37/10, 101/25)).2.2.1 "42" rfl (by decide)⟩

/-- C8: the District Normalizer maps both "CHAMBERI" and "Chamberí" to the
canonical "Chamberí"; more generally, any two non-empty inputs with the same
cleaned form — in particular case-only and diacritic-only variants of an
alias-table entry — normalize to the same canonical district. -/
theorem C8_alias_consistency :
    normalizeDistrict madridDistrictNames (some "CHAMBERI") = "Chamberí" ∧
    normalizeDistrict madridDistrictNames (some "Chamberí") = "Chamberí" ∧
    (∀ s t : String, s ≠ "" → t ≠ "" → cleanName s = cleanName t →
      ∀ ds : List String, normalizeDistrict ds (some s) = normalizeDistrict ds (some t)) := by
  refine ⟨by decide, by decide, ?_⟩
  intro s t hs ht hclean ds
  unfold normalizeDistrict
  simp only [hs, ht, if_false, hclean]

/-- C8 witness: the cleaned-form congruence instantiated at "CHAMBERI" and
"chamberi". -/
theorem C8_witness :
    normalizeDistrict madridDistrictNames (some "CHAMBERI") =
      normalizeDistrict madridDistrictNames (some "chamberi") :=
  C8_alias_consistency.2.2 "CHAMBERI" "chamberi" (by decide) (by decide) (by decide)
    madridDistrictNames

/-- C9: after any user-driven filter change following seeding, every feature
whose district is "Unknown" is invisible, whatever got toggled: the district
checkboxes rendered by `populateFilters` exclude "Unknown", and
`handleFilterChange` rebuilds the active district set from checked
checkboxes, so the rebuilt set (any sublist of the rendered values) can never
contain "Unknown". -/
theorem C9_unknown_hidden (vals checked cats : List String)
    (neighs : List (Option String)) (f : Feature)
    (hsub : ∀ x ∈ checked, x ∈ populateFilters vals)
    (hd : f.district = "Unknown") :
    isVisible f { categories := cats, districts := checked, neighborhoods := neighs } =
      false := by
  have hnot : "Unknown" ∉ checked := by
    intro hmem
    have h2 := hsub _ hmem
    simp [populateFilters] at h2
  simp [isVisible, hd]
  intro _ h
  exact (hnot h).elim

/-- C9 witness: a concrete "Unknown"-district feature is invisible under a
rebuilt filter state. -/
theorem C9_witness :
    isVisible
      { coordinates := (0, 0), category := "Traffic Lights", district := "Unknown",
        neighborhood := some "N/A", type := "N/A", id := "1", address := none }
      { categories := ["Traffic Lights", "Streetlights"], districts := ["Centro"],
        neighborhoods := [some "N/A"] } = false :=
  C9_unknown_hidden ["Centro", "Unknown", ""] ["Centro"] _ _ _ (by decide) rfl

/-- C10: every non-empty input whose cleaned form is empty (for example
"Aravaca", or a whitespace-only string) resolves to the first district of
the boundary collection's iteration order, not to "Unknown": the containment
match against the empty cleaned string succeeds for every vocabulary
entry. -/
theorem C10_empty_clean (d : String) (rest : List String) (s : String)
    (hs : s ≠ "") (hc : cleanName s = "") :
    normalizeDistrict (d :: rest) (some s) = d := by
  unfold normalizeDistrict
  have ha : aliasLookup "" = none := by decide
  have hd : districtMatch "" d = true := by
    simp [districtMatch, hasSub_nil]
  simp [hs, hc, ha, List.find?, hd]

/-- C10 witness: "Aravaca" and a whitespace-only string both resolve to the
first district of the modelled boundary collection. -/
theorem C10_witness :
    normalizeDistrict madridDistrictNames (some "Aravaca") = "Centro" ∧
    normalizeDistrict madridDistrictNames (some "   ") = "Centro" := by
  constructor
  · exact C10_empty_clean "Centro" _ "Aravaca" (by decide) (by decide)
  · exact C10_empty_clean "Centro" _ "   " (by decide) (by decide)

end App
